import Mathlib

/-!
Verification development for the DSA contest frontend.

Shallow embedding of the contest runtime's core modules:
  * `src/utils/advancedOfflineRunner.ts` — the offline execution sandbox,
  * `src/utils/contestPreparation.ts` — the staged preparation pipeline,
  * `src/utils/internetMonitor.ts` — the connectivity monitor,
  * `src/utils/userStateManager.ts` — per-user persisted state reset,
  * `src/pages/EnhancedProblemSolver.tsx` — scoring, final submission with
    retry, and contest-session persistence.

Environmental effects (wall-clock time, the browser runtime, the network,
`localStorage`) are modelled by explicit parameters; JavaScript truthiness
on numbers and strings is modelled by explicit `if _ = 0`- and
`if _ = ""`-style branches mirroring each use of `||` in the source.
-/

namespace DSAContest

/-! ## Execution sandbox (`advancedOfflineRunner.ts`) -/

/-- `TestCase` from `advancedOfflineRunner.ts`. -/
structure TestCase where
  input : String
  expectedOutput : String
  description : Option String := none
deriving Repr, DecidableEq

/-- `ExecutionResult` from `advancedOfflineRunner.ts`.  `executionTime` is
wall-clock in the source; the model keeps the field but always sets it to 0
since no claim concerns timing. -/
structure ExecutionResult where
  passed : Bool
  executionTime : Nat
  output : String
  error : Option String := none
  testCase : TestCase
deriving Repr, DecidableEq

/-- A JavaScript runtime value, as far as `normalizeOutput` inspects one:
undefined, null, booleans, numbers (modelled as integers), strings, arrays
and plain objects. -/
inductive JsValue where
  | undef : JsValue
  | nullv : JsValue
  | boolv : Bool → JsValue
  | num : Int → JsValue
  | strv : String → JsValue
  | arr : List JsValue → JsValue
  | obj : List (String × JsValue) → JsValue
deriving Repr

/-- Models the string-escaping part of the platform `JSON.stringify` on a
string value: wrap in double quotes, escaping backslashes and quotes. -/
def jsonEscape (s : String) : String :=
  "\"" ++ String.join (s.toList.map (fun c =>
    if c = '\\' then "\\\\"
    else if c = '"' then "\\\""
    else String.singleton c)) ++ "\""

mutual

/-- Models the platform `JSON.stringify`: `none` when the value is
undefined (stringify of `undefined` is not a string).  Undefined array
elements serialize as `null`; undefined object fields are dropped. -/
def jsonStringify : JsValue → Option String
  | JsValue.undef => none
  | JsValue.nullv => some "null"
  | JsValue.boolv b => some (if b then "true" else "false")
  | JsValue.num n => some (toString n)
  | JsValue.strv s => some (jsonEscape s)
  | JsValue.arr xs => some ("[" ++ String.intercalate "," (jsonStringifyElems xs) ++ "]")
  | JsValue.obj fs => some ("\x7b" ++ String.intercalate "," (jsonStringifyFields fs) ++ "\x7d")

/-- Array elements under `JSON.stringify`: `undefined` becomes `null`. -/
def jsonStringifyElems : List JsValue → List String
  | [] => []
  | v :: vs => (jsonStringify v).getD "null" :: jsonStringifyElems vs

/-- Object fields under `JSON.stringify`: fields whose value serializes to
nothing are dropped. -/
def jsonStringifyFields : List (String × JsValue) → List String
  | [] => []
  | (k, v) :: fs =>
      match jsonStringify v with
      | some s => (jsonEscape k ++ ":" ++ s) :: jsonStringifyFields fs
      | none => jsonStringifyFields fs

end

/-- The JavaScript `String(..)` coercion on the values `normalizeOutput`
can reach it with (undefined, null, objects). -/
def jsToString : JsValue → String
  | JsValue.undef => "undefined"
  | JsValue.nullv => "null"
  | JsValue.boolv b => if b then "true" else "false"
  | JsValue.num n => toString n
  | JsValue.strv s => s
  | JsValue.arr _ => ""
  | JsValue.obj _ => "[object Object]"

/-- `normalizeOutput` from `advancedOfflineRunner.ts` (lines 139–150):
arrays stringify; undefined/null print their literal text; objects try
JSON stringification falling back to textual coercion; strings pass
through; other scalars stringify. -/
def normalizeOutput : JsValue → String
  | JsValue.arr xs => (jsonStringify (JsValue.arr xs)).getD "undefined"
  | JsValue.undef => jsToString JsValue.undef
  | JsValue.nullv => jsToString JsValue.nullv
  | JsValue.obj fs => (jsonStringify (JsValue.obj fs)).getD (jsToString (JsValue.obj fs))
  | JsValue.strv s => s
  | v => (jsonStringify v).getD "undefined"

/-- Models the platform `String.prototype.trim`: drop leading and trailing
whitespace.  Defined over the character list so that it evaluates inside
the kernel. -/
def jsTrim (s : String) : String :=
  String.mk (((s.data.dropWhile Char.isWhitespace).reverse.dropWhile
    Char.isWhitespace).reverse)

/-- The `\x7b stdout, result, error? \x7d` record produced by
`runJavaScriptUserCode` / `runPythonUserCode` for one test case. -/
structure RunnerOutput where
  stdout : String
  result : JsValue
  error : Option String := none
deriving Repr

/-- The stdout captured by `runJavaScriptUserCode`: the `console.log`
lines joined with a newline (`__buffer.join('\n')`), not trimmed. -/
def jsCapturedStdout (lines : List String) : String :=
  String.intercalate "\n" lines

/-- `executeTestCase` from `advancedOfflineRunner.ts` (lines 204–266),
with the per-language runner's output supplied as `run` and the
`isPythonReady` flag explicit.  The supported-language body computes
`passed` from the normalized return value or the captured stdout against
the trimmed expected output; a runner-reported error forces `passed :=
false` and surfaces the error text as the output; the returned output is
trimmed.  The unsupported-language and Python-not-ready throws are caught
by the surrounding `catch`, yielding a failed result carrying the error
message. -/
def executeTestCase (isPythonReady : Bool) (language : String)
    (run : RunnerOutput) (tc : TestCase) : ExecutionResult :=
  if language = "python" ∧ isPythonReady = false then
    { passed := false, executionTime := 0, output := "",
      error := some "Python execution environment not available", testCase := tc }
  else if language = "python" ∨ language = "javascript" then
    let actualResult := normalizeOutput run.result
    let actualStdout := run.stdout
    let expected := jsTrim tc.expectedOutput
    let output := if actualStdout = "" then actualResult else actualStdout
    let passed := actualResult == expected || actualStdout == expected
    match run.error with
    | some e => { passed := false, executionTime := 0, output := jsTrim e,
                  error := none, testCase := tc }
    | none => { passed := passed, executionTime := 0, output := jsTrim output,
                error := none, testCase := tc }
  else
    { passed := false, executionTime := 0, output := "",
      error := some ("Unsupported language: " ++ language), testCase := tc }

/-- `AdvancedOfflineRunner.runCode` (lines 179–202): executes every test
case in order, collecting one `ExecutionResult` each; `exec` supplies the
per-test-case runner output. -/
def runCode (isPythonReady : Bool) (language : String)
    (exec : TestCase → RunnerOutput) (testCases : List TestCase) :
    List ExecutionResult :=
  testCases.map (fun tc => executeTestCase isPythonReady language (exec tc) tc)

/-- The pre-trim output text chosen by the supported-language branch of
`executeTestCase`: the runner error if present, else the captured stdout
if nonempty, else the normalized return value. -/
def executeOutputRaw (run : RunnerOutput) : String :=
  match run.error with
  | some e => e
  | none => if run.stdout = "" then normalizeOutput run.result else run.stdout

/-! ## Per-problem scoring (`EnhancedProblemSolver.tsx`, `markProblemDone`) -/

/-- A test case as declared on a problem record, as far as the scoring code
inspects it: only the optional `points` field matters (`Number(tc.points)`
of an absent field is `NaN`, which `|| 0` collapses to 0; the model's
`Option` plays the role of the absent field). -/
structure ProblemTestCase where
  points : Option ℚ := none
deriving Repr, DecidableEq

/-- The `ptsArray` built in `markProblemDone` (lines 564–566): when the
problem declares a `testCases` array, map each entry to its declared point
value collapsed through `Number(..) || 0`; otherwise the empty array. -/
def mkPtsArray : Option (List ProblemTestCase) → List ℚ
  | some l => l.map (fun tc => tc.points.getD 0)
  | none => []

/-- One step of the `reduce` in `markProblemDone` (lines 568–571): at
result index `idx`, a passed test contributes `ptsArray[idx] || 0` when
`ptsArray` is nonempty, else an even share `100 / max 1 n` where `n` is
the number of results; a failed test contributes 0. -/
def scoreStep (ptsArray : List ℚ) (n : Nat) (acc : ℚ) (idx : Nat)
    (passed : Bool) : ℚ :=
  let pts : ℚ := if 0 < ptsArray.length then ptsArray.getD idx 0
                 else 100 / ((max 1 n : Nat) : ℚ)
  acc + (if passed then pts else 0)

/-- The left fold of `scoreStep` over the per-test pass flags, carrying
the running index, mirroring `safeResults.reduce`. -/
def scoreFold (ptsArray : List ℚ) (n : Nat) : ℚ → Nat → List Bool → ℚ
  | acc, _, [] => acc
  | acc, idx, r :: rs => scoreFold ptsArray n (scoreStep ptsArray n acc idx r) (idx + 1) rs

/-- The per-problem `score` computed by `markProblemDone`, from the
problem's declared test cases and the pass flag of each execution
result. -/
def markProblemDoneScore (testCases : Option (List ProblemTestCase))
    (results : List Bool) : ℚ :=
  scoreFold (mkPtsArray testCases) results.length 0 0 results

/-! ## Final submission with retry (`EnhancedProblemSolver.tsx`,
`submitFinalResults`, lines 677–775) -/

/-- `maxRetries` in `submitFinalResults`. -/
def maxRetries : Nat := 3

/-- Observable outcome of one `submitFinalResults` call chain: how many
POST attempts were made, the backoff delays (ms) scheduled between them,
whether a POST succeeded, and the `final_contest_result` localStorage slot
after the chain (the function reads it but never writes or removes it). -/
structure SubmitTrace where
  posts : Nat
  delaysMs : List Nat
  success : Bool
  finalResultStore : Option String
deriving Repr, DecidableEq

/-- `submitFinalResults(retryCount)`: aborts with no POST when the
connectivity state is offline at this invocation, or when the payload
lacks a user or contest id; otherwise POSTs once; on failure with
`retryCount < maxRetries - 1` schedules a retry after `2 ^ retryCount *
1000` ms, else gives up.  `online k` / `postOk k` are the environment's
answers at the invocation with retry count `k`. -/
def submitFinalResults (online : Nat → Bool) (validPayload : Bool)
    (postOk : Nat → Bool) (store : Option String) (retryCount : Nat) :
    SubmitTrace :=
  if online retryCount = false then
    { posts := 0, delaysMs := [], success := false, finalResultStore := store }
  else if validPayload = false then
    { posts := 0, delaysMs := [], success := false, finalResultStore := store }
  else if postOk retryCount then
    { posts := 1, delaysMs := [], success := true, finalResultStore := store }
  else if retryCount < maxRetries - 1 then
    let rest := submitFinalResults online validPayload postOk store (retryCount + 1)
    { posts := 1 + rest.posts, delaysMs := 2 ^ retryCount * 1000 :: rest.delaysMs,
      success := rest.success, finalResultStore := rest.finalResultStore }
  else
    { posts := 1, delaysMs := [], success := false, finalResultStore := store }
termination_by maxRetries - retryCount
decreasing_by
  have h3 : maxRetries = 3 := rfl
  omega

/-! ## Preparation pipeline (`contestPreparation.ts`) -/

/-- The `stage` enum of `PreparationProgress`. -/
inductive PrepStage where
  | idle | downloading | preparing | ready | error
deriving Repr, DecidableEq

/-- `PreparationProgress` from `contestPreparation.ts`. -/
structure PreparationProgress where
  stage : PrepStage
  progress : Nat
  message : String
  details : String
deriving Repr, DecidableEq

/-- A `Partial<PreparationProgress>` argument of `updateProgress`: absent
fields keep their current value under the object spread. -/
structure ProgressUpdate where
  stage : Option PrepStage := none
  progress : Option Nat := none
  message : Option String := none
  details : Option String := none
deriving Repr

/-- The object spread `\x7b ...this.progress, ...updates \x7d`. -/
def applyProgressUpdate (p : PreparationProgress) (u : ProgressUpdate) :
    PreparationProgress :=
  { stage := u.stage.getD p.stage, progress := u.progress.getD p.progress,
    message := u.message.getD p.message, details := u.details.getD p.details }

/-- Live state of the `ContestPreparation` singleton, together with the
log of progress values published to subscribers. -/
structure PrepState where
  progress : PreparationProgress
  isPreparing : Bool
  published : List PreparationProgress
deriving Repr

/-- `ContestPreparation.updateProgress`: merge the update into live
progress and publish the merged value to every subscriber (the publish
log records it). -/
def prepUpdateProgress (s : PrepState) (u : ProgressUpdate) : PrepState :=
  let p := applyProgressUpdate s.progress u
  { progress := p, isPreparing := s.isPreparing, published := s.published ++ [p] }

/-- Stage 1, `downloadPythonLibraries` (lines 122–137). -/
def downloadPythonLibraries (s : PrepState) : PrepState :=
  let s := prepUpdateProgress s
    { progress := some 10, message := some "Downloading Python libraries...",
      details := some "Setting up Pyodide for offline Python execution" }
  prepUpdateProgress s
    { progress := some 30, message := some "Python libraries downloaded",
      details := some "Pyodide loaded successfully" }

/-- Stage 2, `downloadJavaScriptLibraries` (lines 139–154). -/
def downloadJavaScriptLibraries (s : PrepState) : PrepState :=
  let s := prepUpdateProgress s
    { progress := some 40, message := some "Downloading JavaScript libraries...",
      details := some "Setting up offline JavaScript execution environment" }
  prepUpdateProgress s
    { progress := some 60, message := some "JavaScript libraries downloaded",
      details := some "Offline JS execution ready" }

/-- Stage 3, `downloadContestProblems` (lines 156–221); the cache and
network interactions do not publish progress, so only the two progress
updates are modelled. -/
def downloadContestProblems (s : PrepState) : PrepState :=
  let s := prepUpdateProgress s
    { progress := some 70, message := some "Downloading contest problems...",
      details := some "Loading DSA problems and test cases" }
  prepUpdateProgress s
    { progress := some 85, message := some "Contest problems loaded",
      details := some "Problems and test cases ready for offline use" }

/-- Stage 4, `prepareOfflineEnvironment` (lines 223–256):
`pythonPreloadOk` is the boolean returned by `preloadPythonEnvironment`
(which traps its own exceptions); on failure the published progress drops
back to 90 after the 92 update. -/
def prepareOfflineEnvironment (pythonPreloadOk : Bool) (s : PrepState) :
    PrepState :=
  let s := prepUpdateProgress s
    { progress := some 90, message := some "Preparing offline environment...",
      details := some "Setting up code execution sandbox" }
  let s := prepUpdateProgress s
    { progress := some 92, message := some "Initializing Python engine...",
      details := some "Loading Pyodide for offline Python execution" }
  let s := prepUpdateProgress s
    { progress := some (if pythonPreloadOk then 94 else 90),
      message := some (if pythonPreloadOk then "Python engine ready"
                       else "Python engine unavailable"),
      details := some (if pythonPreloadOk then "Pyodide initialized successfully"
                       else "Pyodide failed to initialize") }
  prepUpdateProgress s
    { progress := some 95, message := some "Offline environment ready",
      details := some "Code execution sandbox prepared" }

/-- Stage 5, `finalizePreparation` (lines 258–275); the persisted
prepared-flag writes do not publish progress. -/
def finalizePreparation (s : PrepState) : PrepState :=
  prepUpdateProgress s
    { progress := some 98, message := some "Finalizing preparation...",
      details := some "Completing setup and verification" }

/-- `ContestPreparation.prepareContest` (lines 72–120).  Returns false
immediately when a run is already in flight.  Otherwise sets the guard,
publishes the starting update, runs the five stages (`stageFailure` is
the error message if some stage throws; `none` means all succeed),
publishes `ready`/100 on success or `error`/0 on failure, and clears the
guard on every exit path (the `finally`). -/
def prepareContest (pythonPreloadOk : Bool) (stageFailure : Option String)
    (s : PrepState) : Bool × PrepState :=
  if s.isPreparing then
    (false, s)
  else
    let s1 := { s with isPreparing := true }
    let s2 := prepUpdateProgress s1
      { stage := some PrepStage.downloading, progress := some 0,
        message := some "Starting contest preparation...",
        details := some "Downloading required libraries and packages" }
    match stageFailure with
    | some msg =>
        let s3 := prepUpdateProgress s2
          { stage := some PrepStage.error, progress := some 0,
            message := some "Preparation failed", details := some msg }
        (false, { s3 with isPreparing := false })
    | none =>
        let s3 := downloadPythonLibraries s2
        let s4 := downloadJavaScriptLibraries s3
        let s5 := downloadContestProblems s4
        let s6 := prepareOfflineEnvironment pythonPreloadOk s5
        let s7 := finalizePreparation s6
        let s8 := prepUpdateProgress s7
          { stage := some PrepStage.ready, progress := some 100,
            message := some "Contest preparation complete!",
            details := some "All systems ready. You can now turn off your internet and start the contest." }
        (true, { s8 with isPreparing := false })

/-- The idle initial state of the `ContestPreparation` singleton. -/
def idlePrepState : PrepState :=
  { progress := { stage := PrepStage.idle, progress := 0,
                  message := "Ready to prepare contest", details := "" },
    isPreparing := false, published := [] }

/-- The sequence of progress percentages published during one
from-idle preparation run in which every stage succeeds (so the run ends
in the `ready` stage), as a function of whether the Python warm-up
reported success. -/
def readyRunProgressValues (pythonPreloadOk : Bool) : List Nat :=
  ((prepareContest pythonPreloadOk none idlePrepState).2.published).map
    (fun p => p.progress)

/-! ## Internet monitor (`internetMonitor.ts`) -/

/-- The `connectionQuality` enum of `InternetStatus`. -/
inductive ConnectionQuality where
  | good | poor | offline
deriving Repr, DecidableEq

/-- `InternetStatus` from `internetMonitor.ts`.  The `lastChecked`
timestamp is environmental and carried as plain data nowhere inspected by
the claims, so the model drops it. -/
structure InternetStatus where
  isOnline : Bool
  connectionQuality : ConnectionQuality
  latency : Option Nat := none
deriving Repr, DecidableEq

/-- Live state of the `InternetMonitor` singleton: the subscriber list
(callbacks identified by number) and the current status. -/
structure MonitorState where
  callbacks : List Nat
  currentStatus : InternetStatus
deriving Repr, DecidableEq

/-- `InternetMonitor.subscribe` (lines 145–155): pushes the callback onto
the subscriber list and returns.  The second component is the list of
callback invocations performed during the call — the source performs
none. -/
def monitorSubscribe (s : MonitorState) (cb : Nat) :
    MonitorState × List (Nat × InternetStatus) :=
  ({ callbacks := s.callbacks ++ [cb], currentStatus := s.currentStatus }, [])

/-- The `forEach` notification loop of `InternetMonitor.updateStatus`
(lines 62–69): every subscribed callback is invoked in order; each
invocation is wrapped in its own try/catch, so a throwing callback
(`throws c = true`) is logged and the loop continues.  Each log entry
records the callback and whether it threw. -/
def notifyCallbacks (throws : Nat → Bool) (cbs : List Nat) :
    List (Nat × Bool) :=
  cbs.map (fun c => (c, throws c))

/-- `InternetMonitor.updateStatus` (lines 56–70): merge the new status
into the current one and notify every subscriber.  Every call site
supplies all claim-relevant fields, so the merge is modelled as
replacement.  The subscriber list is not touched. -/
def monitorUpdateStatus (throws : Nat → Bool) (s : MonitorState)
    (newStatus : InternetStatus) : MonitorState × List (Nat × Bool) :=
  ({ callbacks := s.callbacks, currentStatus := newStatus },
   notifyCallbacks throws s.callbacks)

/-- `InternetMonitor.checkConnectivity` (lines 72–112).
`navigatorOnLine` is the platform link state; `probe` is the outcome of
the 3-second-bounded fetch (`some latencyMs` on success, `none` on any
failure including timeout/abort, which the source catches).  The second
component records whether a network probe was issued. -/
def checkConnectivity (navigatorOnLine : Bool) (probe : Option Nat) :
    InternetStatus × Bool :=
  if navigatorOnLine = false then
    ({ isOnline := false, connectionQuality := ConnectionQuality.offline,
       latency := none }, false)
  else
    match probe with
    | some latencyMs =>
        ({ isOnline := true,
           connectionQuality := if latencyMs < 1000 then ConnectionQuality.good
                                else ConnectionQuality.poor,
           latency := some latencyMs }, true)
    | none =>
        ({ isOnline := false, connectionQuality := ConnectionQuality.offline,
           latency := none }, true)

/-- `InternetMonitor.performCheck` (lines 139–143): run the connectivity
check, publish the status, and return it.  Yields the new monitor state,
the notification log, the returned status, and whether a probe was
issued. -/
def performCheck (throws : Nat → Bool) (s : MonitorState)
    (navigatorOnLine : Bool) (probe : Option Nat) :
    MonitorState × List (Nat × Bool) × InternetStatus × Bool :=
  let (status, probed) := checkConnectivity navigatorOnLine probe
  let (s1, log) := monitorUpdateStatus throws s status
  (s1, log, status, probed)

/-! ## Contest session persistence (`EnhancedProblemSolver.tsx`,
`saveContestState` lines 777–789 and the rehydration effect lines
280–333) -/

/-- The fields of one appended problem result that the persisted session
state round-trips (the full record also carries code, language and
timestamps; they are irrelevant to the rehydration claim). -/
structure ProblemResultRec where
  problemId : String
  score : ℚ
deriving Repr, DecidableEq

/-- The `contestState` object written by `saveContestState`. -/
structure ContestSessionState where
  contestStarted : Bool
  currentProblemIndex : Nat
  problemResults : List ProblemResultRec
  contestCompleted : Bool
  timeLeft : Nat
  contestStartTime : Nat
  violationCount : Nat
  penaltyPoints : Nat
deriving Repr, DecidableEq

/-- JavaScript `||` on a number with a numeric default: 0 is falsy. -/
def jsOrNat (v d : Nat) : Nat := if v = 0 then d else v

/-- `saveContestState`: the snapshot written to `localStorage` is exactly
the record of the eight live state variables (JSON serialization of
booleans, numbers and arrays of records is lossless and modelled as the
record itself). -/
def saveContestState (s : ContestSessionState) : ContestSessionState := s

/-- The rehydration effect (lines 295–303): each field is read back with
a `||` default — `state.contestStarted || false`,
`state.currentProblemIndex || 0`, `state.problemResults || []` (an array
is always truthy), `state.timeLeft || timeLeft || 0` falling back to the
in-memory `timeLeft` closure value, `state.contestStartTime || Date.now()`,
`state.violationCount || 0`, `state.penaltyPoints || 0`. -/
def rehydrateContestState (saved : ContestSessionState)
    (closureTimeLeft : Nat) (now : Nat) : ContestSessionState :=
  { contestStarted := saved.contestStarted || false,
    currentProblemIndex := jsOrNat saved.currentProblemIndex 0,
    problemResults := saved.problemResults,
    contestCompleted := saved.contestCompleted || false,
    timeLeft := jsOrNat saved.timeLeft (jsOrNat closureTimeLeft 0),
    contestStartTime := jsOrNat saved.contestStartTime now,
    violationCount := jsOrNat saved.violationCount 0,
    penaltyPoints := jsOrNat saved.penaltyPoints 0 }

/-- The initial `useState` values of the session component relevant to
rehydration; in particular `timeLeft` starts at 0, so at process start
the rehydration effect's closure sees `timeLeft = 0`. -/
def initialTimeLeft : Nat := 0

/-! ## User state manager (`userStateManager.ts`) -/

/-- A `localStorage` snapshot: an association list of key/value pairs
with unique keys (as `localStorage` maintains). -/
abbrev Store := List (String × String)

/-- `localStorage.getItem`. -/
def getItem (store : Store) (k : String) : Option String :=
  (store.find? (fun kv => kv.1 == k)).map (fun kv => kv.2)

/-- `localStorage.removeItem`. -/
def removeItem (store : Store) (k : String) : Store :=
  store.filter (fun kv => !(kv.1 == k))

/-- `localStorage.setItem`. -/
def setItem (store : Store) (k v : String) : Store :=
  removeItem store k ++ [(k, v)]

/-- JavaScript `String.prototype.startsWith`, over character lists so it
evaluates inside the kernel. -/
def jsStartsWith (s pat : String) : Bool :=
  pat.data.isPrefixOf s.data

/-- The keys removed by `resetAllUserState` (lines 73–97): the four named
contest keys plus every key with one of the four user-data name
beginnings. -/
def isUserDataKey (k : String) : Bool :=
  k = "contest_state" || k = "contest_results" || k = "final_contest_result" ||
  k = "internet_violations" ||
  jsStartsWith k "contest_" || jsStartsWith k "user_" ||
  jsStartsWith k "problem_" || jsStartsWith k "submission_"

/-- `UserStateManager.resetAllUserState`: remove every user-data key. -/
def resetAllUserState (store : Store) : Store :=
  store.filter (fun kv => !(isUserDataKey kv.1))

/-- `UserStateManager.getCurrentUserState`: the stored user record under
`current_user_state`, modelled by its `userId` (the `lastLogin` companion
field is never compared); a parse failure reads as `none`. -/
def getCurrentUserState (store : Store) : Option String :=
  getItem store "current_user_state"

/-- `UserStateManager.setCurrentUserState`. -/
def setCurrentUserState (store : Store) (userId : String) : Store :=
  setItem store "current_user_state" userId

/-- `UserStateManager.checkAndResetUserState` (lines 28–50): no stored
user ⇒ reset everything, record the new id, return true; a different
stored user ⇒ the same; the same stored user ⇒ return false leaving the
store untouched. -/
def checkAndResetUserState (store : Store) (newUserId : String) :
    Bool × Store :=
  match getCurrentUserState store with
  | none => (true, setCurrentUserState (resetAllUserState store) newUserId)
  | some uid =>
      if ¬ uid = newUserId then
        (true, setCurrentUserState (resetAllUserState store) newUserId)
      else
        (false, store)

/-! ## Concrete fixtures used by witnesses and counterexamples -/

/-- The normalized offline status record. -/
def offlineStatus : InternetStatus :=
  { isOnline := false, connectionQuality := ConnectionQuality.offline,
    latency := none }

/-- A concrete runner output: the program printed `6` and returned
nothing. -/
def witnessRun : RunnerOutput :=
  { stdout := "6", result := JsValue.undef, error := none }

/-- A concrete test case expecting the answer `6`. -/
def witnessTC : TestCase :=
  { input := "3\n1 2 3", expectedOutput := "6", description := none }

/-! # Theorems -/

/-- Helper: in a supported, ready language, `executeTestCase` reduces to
the comparison body. -/
theorem executeTestCase_supported (isPythonReady : Bool) (language : String)
    (run : RunnerOutput) (tc : TestCase)
    (h : language = "javascript" ∨ (language = "python" ∧ isPythonReady = true)) :
    executeTestCase isPythonReady language run tc =
      match run.error with
      | some e => { passed := false, executionTime := 0, output := jsTrim e,
                    error := none, testCase := tc }
      | none =>
          { passed := (normalizeOutput run.result == jsTrim tc.expectedOutput ||
                       run.stdout == jsTrim tc.expectedOutput),
            executionTime := 0,
            output := jsTrim (if run.stdout = "" then normalizeOutput run.result
                              else run.stdout),
            error := none, testCase := tc } := by
  rcases h with h | ⟨h, hr⟩ <;> subst h
  · simp [executeTestCase]
  · subst hr
    simp [executeTestCase]

/-- Claim C1 (confirmed): every result of `runCode` in a supported
language comes from its test case, and passes exactly when the normalized
return value or the captured stdout equals the trimmed expected output;
when the runner reports an error the result fails and its output is the
(trimmed) error text. -/
theorem runCode_pass_policy (isPythonReady : Bool) (language : String)
    (exec : TestCase → RunnerOutput) (testCases : List TestCase)
    (hsupported : language = "javascript" ∨ (language = "python" ∧ isPythonReady = true))
    (r : ExecutionResult) (hr : r ∈ runCode isPythonReady language exec testCases) :
    ∃ tc ∈ testCases, r = executeTestCase isPythonReady language (exec tc) tc ∧
      ((exec tc).error = none →
        (r.passed = true ↔ (normalizeOutput (exec tc).result = jsTrim tc.expectedOutput ∨
          (exec tc).stdout = jsTrim tc.expectedOutput))) ∧
      (∀ e, (exec tc).error = some e → r.passed = false ∧ r.output = jsTrim e) := by
  unfold runCode at hr
  rw [List.mem_map] at hr
  obtain ⟨tc, htc, hrtc⟩ := hr
  refine ⟨tc, htc, hrtc.symm, ?_, ?_⟩
  · intro hnone
    subst hrtc
    rw [executeTestCase_supported _ _ _ _ hsupported, hnone]
    simp
  · intro e he
    subst hrtc
    rw [executeTestCase_supported _ _ _ _ hsupported, he]
    simp

/-- Witness for C1: a JavaScript run that prints `6` against expected
output `6`. -/
theorem runCode_pass_policy_witness :
    ∃ tc ∈ [witnessTC],
      executeTestCase true "javascript" witnessRun witnessTC =
        executeTestCase true "javascript" ((fun _ => witnessRun) tc) tc ∧
      (((fun _ => witnessRun) tc).error = none →
        (((executeTestCase true "javascript" witnessRun witnessTC).passed = true) ↔
          (normalizeOutput ((fun _ => witnessRun) tc).result = jsTrim tc.expectedOutput ∨
            ((fun _ => witnessRun) tc).stdout = jsTrim tc.expectedOutput))) ∧
      (∀ e, ((fun _ => witnessRun) tc).error = some e →
        (executeTestCase true "javascript" witnessRun witnessTC).passed = false ∧
        (executeTestCase true "javascript" witnessRun witnessTC).output = jsTrim e) :=
  runCode_pass_policy true "javascript" (fun _ => witnessRun) [witnessTC]
    (Or.inl rfl) (executeTestCase true "javascript" witnessRun witnessTC) (by decide)

/-- Counterexample for C9: trailing whitespace in the captured stdout of
a JavaScript program flips a passing test to failing, so whitespace in
the program output does affect the verdict. -/
theorem executeTestCase_stdout_whitespace_sensitive :
    (executeTestCase true "javascript"
      { stdout := jsCapturedStdout ["6 "], result := JsValue.undef, error := none }
      { input := "", expectedOutput := "6", description := none }).passed = false ∧
    (executeTestCase true "javascript"
      { stdout := jsCapturedStdout ["6"], result := JsValue.undef, error := none }
      { input := "", expectedOutput := "6", description := none }).passed = true := by
  constructor <;> decide

/-- Claim C9 as amended (corrected): the pass verdict depends on the
expected output only through its trimmed form, and the returned output
field is the trimmed candidate text; whitespace in the captured stdout is
compared verbatim and is not covered. -/
theorem executeTestCase_trim_spec (isPythonReady : Bool) (language : String)
    (run : RunnerOutput) (tc : TestCase) (s : String)
    (hs : jsTrim s = jsTrim tc.expectedOutput) :
    (executeTestCase isPythonReady language run
        { input := tc.input, expectedOutput := s, description := tc.description }).passed =
      (executeTestCase isPythonReady language run tc).passed ∧
    ((language = "javascript" ∨ (language = "python" ∧ isPythonReady = true)) →
      (executeTestCase isPythonReady language run tc).output =
        jsTrim (executeOutputRaw run)) := by
  constructor
  · unfold executeTestCase
    split_ifs <;> simp_all
    cases run.error <;> simp [hs]
  · intro h
    rw [executeTestCase_supported _ _ _ _ h]
    unfold executeOutputRaw
    cases run.error <;> simp

/-- Witness for C9 (amended): expected output ` 6 ` behaves as `6`. -/
theorem executeTestCase_trim_spec_witness :
    (executeTestCase true "javascript" witnessRun
        { input := witnessTC.input, expectedOutput := " 6 ",
          description := witnessTC.description }).passed =
      (executeTestCase true "javascript" witnessRun witnessTC).passed ∧
    ((("javascript" : String) = "javascript" ∨
        (("javascript" : String) = "python" ∧ true = true)) →
      (executeTestCase true "javascript" witnessRun witnessTC).output =
        jsTrim (executeOutputRaw witnessRun)) :=
  executeTestCase_trim_spec true "javascript" witnessRun witnessTC " 6 " (by decide)

/-- Helper: the score fold splits off its accumulator. -/
theorem scoreFold_eq_acc_add (pa : List ℚ) (n : Nat) (rs : List Bool) :
    ∀ acc idx, scoreFold pa n acc idx rs = acc + scoreFold pa n 0 idx rs := by
  induction rs with
  | nil => intro acc idx; simp [scoreFold]
  | cons r rest ih =>
      intro acc idx
      simp only [scoreFold]
      rw [ih, ih (scoreStep pa n 0 idx r)]
      simp only [scoreStep]
      ring

/-- Helper: the score fold is a finite sum of per-index contributions. -/
theorem scoreFold_eq_sum (pa : List ℚ) (n : Nat) (rs : List Bool) :
    ∀ idx, scoreFold pa n 0 idx rs =
      ∑ j in Finset.range rs.length,
        (if rs.getD j false then
          (if 0 < pa.length then pa.getD (idx + j) 0
           else 100 / ((max 1 n : Nat) : ℚ)) else 0) := by
  induction rs with
  | nil => intro idx; simp [scoreFold]
  | cons r rest ih =>
      intro idx
      simp only [scoreFold]
      rw [scoreFold_eq_acc_add, ih (idx + 1)]
      rw [List.length_cons, Finset.sum_range_succ']
      simp only [List.getD_cons_succ, List.getD_cons_zero, scoreStep]
      have harith : ∀ j : Nat, idx + 1 + j = idx + (j + 1) := by omega
      simp only [harith]
      rw [add_comm]
      simp

/-- Helper: summing a constant over the passed indices counts them. -/
theorem sum_passed_const (c : ℚ) (rs : List Bool) :
    ∑ j in Finset.range rs.length, (if rs.getD j false then c else 0) =
      (rs.count true : ℚ) * c := by
  induction rs with
  | nil => simp
  | cons r rest ih =>
      rw [List.length_cons, Finset.sum_range_succ']
      simp only [List.getD_cons_succ, List.getD_cons_zero]
      rw [ih, List.count_cons]
      rcases r with _ | _ <;> push_cast <;> ring_nf <;> simp

/-- Counterexample for C2: a problem with one test case that declares no
point value yields score 0 for a fully passing run, not the even split of
100 the claim demands. -/
theorem markProblemDone_undeclared_points_score_zero :
    markProblemDoneScore (some [{ points := none }]) [true] = 0 ∧
    (0 : ℚ) ≠ 100 / ((max 1 1 : Nat) : ℚ) := by
  constructor
  · simp [markProblemDoneScore, mkPtsArray, scoreFold, scoreStep]
  · norm_num

/-- Claim C2 as amended (corrected): with a nonempty declared test-case
array the score is the sum over passed results of the declared point
values (0 for an entry that declares none); the even split of 100 applies
only when the test-case array is absent or empty. -/
theorem markProblemDoneScore_spec (testCases : Option (List ProblemTestCase))
    (results : List Bool) :
    (∀ l, testCases = some l → l ≠ [] →
      markProblemDoneScore testCases results =
        ∑ i in Finset.range results.length,
          (if results.getD i false
           then (l.map (fun tc => tc.points.getD 0)).getD i 0 else 0)) ∧
    ((testCases = none ∨ testCases = some []) →
      markProblemDoneScore testCases results =
        (results.count true : ℚ) * (100 / ((max 1 results.length : Nat) : ℚ))) := by
  constructor
  · intro l hl hne
    subst hl
    unfold markProblemDoneScore mkPtsArray
    rw [scoreFold_eq_sum]
    have hpos : 0 < l.length := List.length_pos.mpr hne
    simp [hpos]
  · intro h
    have hmk : mkPtsArray testCases = [] := by
      rcases h with h | h <;> subst h <;> rfl
    unfold markProblemDoneScore
    rw [hmk, scoreFold_eq_sum]
    simp only [List.length_nil, Nat.lt_irrefl, if_false]
    rw [sum_passed_const]

/-- Witness for C2 (amended): declared points 40 and 60, both passing. -/
theorem markProblemDoneScore_spec_witness :
    markProblemDoneScore (some [{ points := some 40 }, { points := some 60 }])
        [true, true] =
      ∑ i in Finset.range [true, true].length,
        (if [true, true].getD i false
         then (([({ points := some (40 : ℚ) } : ProblemTestCase),
                  { points := some 60 }]).map
                (fun tc => tc.points.getD 0)).getD i 0 else 0) :=
  (markProblemDoneScore_spec (some [{ points := some 40 }, { points := some 60 }])
    [true, true]).1 _ rfl (by simp)

/-- Helper: one-step unfolding of the retry chain at retry count 2, where
no further retry is scheduled. -/
theorem submitFinalResults_at_two (online : Nat → Bool) (valid : Bool)
    (postOk : Nat → Bool) (store : Option String) :
    submitFinalResults online valid postOk store 2 =
      if online 2 = false then
        { posts := 0, delaysMs := [], success := false, finalResultStore := store }
      else if valid = false then
        { posts := 0, delaysMs := [], success := false, finalResultStore := store }
      else if postOk 2 then
        { posts := 1, delaysMs := [], success := true, finalResultStore := store }
      else
        { posts := 1, delaysMs := [], success := false, finalResultStore := store } := by
  rw [submitFinalResults]
  norm_num [maxRetries]

/-- Helper: one-step unfolding of the retry chain at retry count 1, with
a 2000 ms backoff before the recursive call. -/
theorem submitFinalResults_at_one (online : Nat → Bool) (valid : Bool)
    (postOk : Nat → Bool) (store : Option String) :
    submitFinalResults online valid postOk store 1 =
      if online 1 = false then
        { posts := 0, delaysMs := [], success := false, finalResultStore := store }
      else if valid = false then
        { posts := 0, delaysMs := [], success := false, finalResultStore := store }
      else if postOk 1 then
        { posts := 1, delaysMs := [], success := true, finalResultStore := store }
      else
        { posts := 1 + (submitFinalResults online valid postOk store 2).posts,
          delaysMs := 2000 :: (submitFinalResults online valid postOk store 2).delaysMs,
          success := (submitFinalResults online valid postOk store 2).success,
          finalResultStore := (submitFinalResults online valid postOk store 2).finalResultStore } := by
  rw [submitFinalResults]
  norm_num [maxRetries]

/-- Helper: one-step unfolding of the retry chain at retry count 0, with
a 1000 ms backoff before the recursive call. -/
theorem submitFinalResults_at_zero (online : Nat → Bool) (valid : Bool)
    (postOk : Nat → Bool) (store : Option String) :
    submitFinalResults online valid postOk store 0 =
      if online 0 = false then
        { posts := 0, delaysMs := [], success := false, finalResultStore := store }
      else if valid = false then
        { posts := 0, delaysMs := [], success := false, finalResultStore := store }
      else if postOk 0 then
        { posts := 1, delaysMs := [], success := true, finalResultStore := store }
      else
        { posts := 1 + (submitFinalResults online valid postOk store 1).posts,
          delaysMs := 1000 :: (submitFinalResults online valid postOk store 1).delaysMs,
          success := (submitFinalResults online valid postOk store 1).success,
          finalResultStore := (submitFinalResults online valid postOk store 1).finalResultStore } := by
  rw [submitFinalResults]
  norm_num [maxRetries]

/-- Claim C3 (confirmed): a `submitFinalResults` chain started at retry
count 0 makes at most 3 POST attempts, the delay before retry `k + 1` is
`2 ^ k` seconds, and the locally persisted final-result record is never
removed on any path. -/
theorem submitFinalResults_retry_policy (online : Nat → Bool) (validPayload : Bool)
    (postOk : Nat → Bool) (store : Option String) :
    (submitFinalResults online validPayload postOk store 0).posts ≤ maxRetries ∧
    (submitFinalResults online validPayload postOk store 0).finalResultStore = store ∧
    (∀ i, i < (submitFinalResults online validPayload postOk store 0).delaysMs.length →
      (submitFinalResults online validPayload postOk store 0).delaysMs.getD i 0 =
        2 ^ i * 1000) := by
  rw [submitFinalResults_at_zero, submitFinalResults_at_one, submitFinalResults_at_two]
  split_ifs <;>
    refine ⟨by norm_num [maxRetries], rfl, ?_⟩ <;>
    · intro i hi
      simp only [List.length_cons, List.length_nil] at hi
      interval_cases i <;> rfl

/-- Witness for C3: two failed POSTs then a success at the third attempt,
with the delay before the third attempt equal to 2 seconds. -/
theorem submitFinalResults_retry_policy_witness :
    (submitFinalResults (fun _ => true) true (fun k => decide (k = 2))
        (some "final") 0).posts ≤ maxRetries ∧
    (submitFinalResults (fun _ => true) true (fun k => decide (k = 2))
        (some "final") 0).finalResultStore = some "final" ∧
    (submitFinalResults (fun _ => true) true (fun k => decide (k = 2))
        (some "final") 0).delaysMs.getD 1 0 = 2 ^ 1 * 1000 := by
  have h := submitFinalResults_retry_policy (fun _ => true) true
    (fun k => decide (k = 2)) (some "final")
  refine ⟨h.1, h.2.1, h.2.2 1 ?_⟩
  rw [submitFinalResults_at_zero, submitFinalResults_at_one, submitFinalResults_at_two]
  norm_num

/-- Helper: the progress values published by a fully successful run with
the Python warm-up reporting failure. -/
theorem readyRunValues_false_eq :
    readyRunProgressValues false =
      [0, 10, 30, 40, 60, 70, 85, 90, 92, 90, 95, 98, 100] := by
  rfl

/-- Helper: the progress values published by a fully successful run with
the Python warm-up reporting success. -/
theorem readyRunValues_true_eq :
    readyRunProgressValues true =
      [0, 10, 30, 40, 60, 70, 85, 90, 92, 94, 95, 98, 100] := by
  rfl

/-- Counterexample for C4: the run in which the Python warm-up fails still
ends in the ready stage but its published progress sequence is not
monotone (92 is followed by 90). -/
theorem readyRun_progress_not_monotone :
    (prepareContest false none idlePrepState).1 = true ∧
    ¬ (∀ i, i + 1 < (readyRunProgressValues false).length →
        (readyRunProgressValues false).getD i 0 ≤
          (readyRunProgressValues false).getD (i + 1) 0) := by
  refine ⟨rfl, fun h => ?_⟩
  have h8 := h 8 (by rw [readyRunValues_false_eq]; norm_num)
  rw [readyRunValues_false_eq] at h8
  norm_num at h8

/-- Claim C4 as amended (corrected): every ready run publishes 100 last;
when the Python warm-up succeeds the sequence is monotone non-decreasing;
the only possible decrease is the single 92 → 90 drop of a failed Python
warm-up. -/
theorem readyRun_progress_spec (pythonPreloadOk : Bool) :
    (prepareContest pythonPreloadOk none idlePrepState).1 = true ∧
    (readyRunProgressValues pythonPreloadOk).getLast? = some 100 ∧
    (pythonPreloadOk = true →
      ∀ i, i + 1 < (readyRunProgressValues pythonPreloadOk).length →
        (readyRunProgressValues pythonPreloadOk).getD i 0 ≤
          (readyRunProgressValues pythonPreloadOk).getD (i + 1) 0) ∧
    (∀ i, i + 1 < (readyRunProgressValues pythonPreloadOk).length →
      (readyRunProgressValues pythonPreloadOk).getD (i + 1) 0 <
        (readyRunProgressValues pythonPreloadOk).getD i 0 →
      pythonPreloadOk = false ∧
        (readyRunProgressValues pythonPreloadOk).getD i 0 = 92 ∧
        (readyRunProgressValues pythonPreloadOk).getD (i + 1) 0 = 90) := by
  rcases pythonPreloadOk with _ | _
  · rw [readyRunValues_false_eq]
    refine ⟨rfl, rfl, by intro h; exact absurd h (by decide), ?_⟩
    intro i h1 h2
    simp only [List.length_cons, List.length_nil] at h1
    have hi : i < 12 := by omega
    interval_cases i <;> revert h2 <;> decide
  · rw [readyRunValues_true_eq]
    refine ⟨rfl, rfl, ?_, ?_⟩
    · intro _ i h1
      simp only [List.length_cons, List.length_nil] at h1
      have hi : i < 12 := by omega
      interval_cases i <;> decide
    · intro i h1 h2
      simp only [List.length_cons, List.length_nil] at h1
      have hi : i < 12 := by omega
      interval_cases i <;> revert h2 <;> decide

/-- Witness for C4 (amended): the dip of the failed-warm-up run is
exactly 92 followed by 90. -/
theorem readyRun_progress_spec_witness :
    false = false ∧
    (readyRunProgressValues false).getD 8 0 = 92 ∧
    (readyRunProgressValues false).getD 9 0 = 90 :=
  (readyRun_progress_spec false).2.2.2 8
    (by rw [readyRunValues_false_eq]; norm_num)
    (by rw [readyRunValues_false_eq]; norm_num)

/-- Counterexample for C5: subscribing performs no callback invocation at
all, in particular none carrying the current status. -/
theorem monitorSubscribe_no_immediate_invocation :
    (monitorSubscribe { callbacks := [], currentStatus := offlineStatus } 0).2 = [] ∧
    ¬ ((0, offlineStatus) ∈
        (monitorSubscribe { callbacks := [], currentStatus := offlineStatus } 0).2) :=
  ⟨rfl, by decide⟩

/-- Claim C5 as amended (corrected): `subscribe` appends the callback
without invoking it; every subsequent `updateStatus` invokes every
subscribed callback (throwing ones included — their exception is caught),
installs the new status, and removes no callback. -/
theorem monitorSubscribe_update_spec (s : MonitorState) (cb : Nat)
    (throws : Nat → Bool) (newStatus : InternetStatus) :
    (monitorSubscribe s cb).2 = [] ∧
    (monitorSubscribe s cb).1.callbacks = s.callbacks ++ [cb] ∧
    (monitorUpdateStatus throws (monitorSubscribe s cb).1 newStatus).2 =
      (s.callbacks ++ [cb]).map (fun c => (c, throws c)) ∧
    (monitorUpdateStatus throws (monitorSubscribe s cb).1 newStatus).1.callbacks =
      s.callbacks ++ [cb] ∧
    (monitorUpdateStatus throws (monitorSubscribe s cb).1 newStatus).1.currentStatus =
      newStatus :=
  ⟨rfl, rfl, rfl, rfl, rfl⟩

/-- Claim C6 (confirmed): with the platform link down `performCheck`
returns the offline status without issuing a probe; a successful probe
yields online with quality good below 1000 ms latency and poor otherwise;
a failed probe yields the offline status. -/
theorem performCheck_spec (throws : Nat → Bool) (s : MonitorState)
    (navigatorOnLine : Bool) (probe : Option Nat) :
    (navigatorOnLine = false →
      (performCheck throws s navigatorOnLine probe).2.2.1 = offlineStatus ∧
      (performCheck throws s navigatorOnLine probe).2.2.2 = false) ∧
    (∀ latencyMs, navigatorOnLine = true → probe = some latencyMs →
      (performCheck throws s navigatorOnLine probe).2.2.1.isOnline = true ∧
      (performCheck throws s navigatorOnLine probe).2.2.1.connectionQuality =
        (if latencyMs < 1000 then ConnectionQuality.good else ConnectionQuality.poor) ∧
      (performCheck throws s navigatorOnLine probe).2.2.2 = true) ∧
    (navigatorOnLine = true → probe = none →
      (performCheck throws s navigatorOnLine probe).2.2.1 = offlineStatus ∧
      (performCheck throws s navigatorOnLine probe).2.2.2 = true) := by
  refine ⟨?_, ?_, ?_⟩
  · intro h
    subst h
    exact ⟨rfl, rfl⟩
  · intro latencyMs h hp
    subst h; subst hp
    refine ⟨rfl, ?_, rfl⟩
    simp [performCheck, checkConnectivity, monitorUpdateStatus]
  · intro h hp
    subst h; subst hp
    exact ⟨rfl, rfl⟩

/-- Witness for C6: with the platform link down no probe is issued and
the offline status is returned. -/
theorem performCheck_spec_witness :
    (performCheck (fun _ => false)
        { callbacks := [], currentStatus := offlineStatus } false (some 5)).2.2.1 =
      offlineStatus ∧
    (performCheck (fun _ => false)
        { callbacks := [], currentStatus := offlineStatus } false (some 5)).2.2.2 =
      false :=
  (performCheck_spec (fun _ => false)
    { callbacks := [], currentStatus := offlineStatus } false (some 5)).1 rfl

/-- Claim C7 (confirmed): a call while a run is in flight returns false
with the state (and hence the publish log) unchanged; any completed run —
success, failure or exception — leaves the guard cleared, and a later
call can then start and complete a new run. -/
theorem prepareContest_single_flight (pythonPreloadOk : Bool)
    (stageFailure : Option String) (s : PrepState) :
    (s.isPreparing = true →
      prepareContest pythonPreloadOk stageFailure s = (false, s)) ∧
    (s.isPreparing = false →
      (prepareContest pythonPreloadOk stageFailure s).2.isPreparing = false) ∧
    (s.isPreparing = false → ∀ ok2,
      (prepareContest ok2 none (prepareContest pythonPreloadOk stageFailure s).2).1 =
        true) := by
  refine ⟨?_, ?_, ?_⟩
  · intro h
    simp [prepareContest, h]
  · intro h
    cases stageFailure <;> simp [prepareContest, h]
  · intro h ok2
    have h2 : (prepareContest pythonPreloadOk stageFailure s).2.isPreparing = false := by
      cases stageFailure <;> simp [prepareContest, h]
    generalize (prepareContest pythonPreloadOk stageFailure s).2 = t at h2
    simp [prepareContest, h2]

/-- Witness for C7: a successful run from idle leaves the guard
cleared. -/
theorem prepareContest_single_flight_witness :
    (prepareContest true none idlePrepState).2.isPreparing = false :=
  (prepareContest_single_flight true none idlePrepState).2.1 rfl

/-- Claim C8 (confirmed): a session state persisted by `saveContestState`
and rehydrated at process start (where the in-memory `timeLeft` closure
value is the initial 0) reproduces the persisted problem index, results,
time left, violation count and penalty points. -/
theorem contestState_roundtrip (saved : ContestSessionState) (now : Nat) :
    (rehydrateContestState (saveContestState saved) initialTimeLeft now).currentProblemIndex =
      saved.currentProblemIndex ∧
    (rehydrateContestState (saveContestState saved) initialTimeLeft now).problemResults =
      saved.problemResults ∧
    (rehydrateContestState (saveContestState saved) initialTimeLeft now).timeLeft =
      saved.timeLeft ∧
    (rehydrateContestState (saveContestState saved) initialTimeLeft now).violationCount =
      saved.violationCount ∧
    (rehydrateContestState (saveContestState saved) initialTimeLeft now).penaltyPoints =
      saved.penaltyPoints := by
  have hz : ∀ v : Nat, jsOrNat v 0 = v := by
    intro v
    unfold jsOrNat
    split_ifs <;> omega
  unfold rehydrateContestState saveContestState initialTimeLeft
  simp [hz]

/-- Helper: resetting removes every user-data key from the store. -/
theorem getItem_resetAllUserState (store : Store) (k : String)
    (hk : isUserDataKey k = true) :
    getItem (resetAllUserState store) k = none := by
  induction store with
  | nil => rfl
  | cons kv rest ih =>
      by_cases h : isUserDataKey kv.1
      · simpa [resetAllUserState, List.filter, h] using ih
      · have hf : isUserDataKey kv.1 = false := by simpa using h
        have hne : (kv.1 == k) = false := by
          by_cases he : kv.1 = k
          · rw [he] at hf
            rw [hf] at hk
            exact absurd hk (by simp)
          · simp [he]
        simp only [resetAllUserState, List.filter] at ih ⊢
        rw [hf]
        simpa [getItem, List.find?, hne] using ih

/-- Helper: removing one key leaves lookups of other keys unchanged. -/
theorem getItem_removeItem_ne (store : Store) (k k' : String) (h : ¬ k' = k) :
    getItem (removeItem store k) k' = getItem store k' := by
  induction store with
  | nil => rfl
  | cons kv rest ih =>
      by_cases hh : kv.1 = k
      · have h2 : (kv.1 == k) = true := by simp [hh]
        have h3 : (kv.1 == k') = false := by
          rw [hh]
          have hkk : ¬ k = k' := fun hc => h hc.symm
          simp [hkk]
        simp only [removeItem, List.filter, h2, Bool.not_true] at ih ⊢
        rw [ih]
        simp [getItem, List.find?, h3]
      · have h2 : (kv.1 == k) = false := by simp [hh]
        simp only [removeItem, List.filter, h2, Bool.not_false] at ih ⊢
        by_cases h4 : kv.1 = k'
        · simp [getItem, List.find?, h4]
        · have h5 : (kv.1 == k') = false := by simp [h4]
          simpa [getItem, List.find?, h5] using ih

/-- Helper: a removed key is gone. -/
theorem getItem_removeItem_self (store : Store) (k : String) :
    getItem (removeItem store k) k = none := by
  induction store with
  | nil => rfl
  | cons kv rest ih =>
      by_cases hh : kv.1 = k
      · have h2 : (kv.1 == k) = true := by simp [hh]
        simp only [removeItem, List.filter, h2, Bool.not_true] at ih ⊢
        exact ih
      · have h2 : (kv.1 == k) = false := by simp [hh]
        simp only [removeItem, List.filter, h2, Bool.not_false] at ih ⊢
        simp only [getItem, List.find?, h2] at ih ⊢
        exact ih

/-- Helper: a key absent from the first half of an append is looked up in
the second half. -/
theorem getItem_append_right (A B : Store) (k : String)
    (h : getItem A k = none) : getItem (A ++ B) k = getItem B k := by
  induction A with
  | nil => rfl
  | cons kv rest ih =>
      by_cases hh : (kv.1 == k) = true
      · simp [getItem, List.find?, hh] at h
      · simp only [Bool.not_eq_true] at hh
        simp only [getItem, List.find?, hh] at h ih ⊢
        exact ih h

/-- Helper: appending a pair under a different key leaves a lookup
unchanged. -/
theorem getItem_append_last_ne (A : Store) (k0 v k : String) (h : ¬ k0 = k) :
    getItem (A ++ [(k0, v)]) k = getItem A k := by
  induction A with
  | nil =>
      have h2 : (k0 == k) = false := by simp [h]
      simp [getItem, List.find?, h2]
  | cons kv rest ih =>
      by_cases hh : (kv.1 == k) = true
      · simp [getItem, List.find?, hh]
      · simp only [Bool.not_eq_true] at hh
        simp only [List.cons_append, getItem, List.find?, hh] at ih ⊢
        exact ih

/-- Helper: a set key reads back its value. -/
theorem getItem_setItem_self (store : Store) (k v : String) :
    getItem (setItem store k v) k = some v := by
  unfold setItem
  rw [getItem_append_right _ _ _ (getItem_removeItem_self store k)]
  simp [getItem, List.find?]

/-- Helper: the user-record key is not itself a user-data key. -/
theorem cus_not_user_data : isUserDataKey "current_user_state" = false := by
  decide

/-- Claim C10 (confirmed): with no stored user, `checkAndResetUserState`
clears all user data, records the new id and returns true — the same
outcome as for a different stored user — and it returns false exactly
when the stored user id equals the new one. -/
theorem checkAndResetUserState_spec (store : Store) (newUserId : String) :
    (getCurrentUserState store = none →
      checkAndResetUserState store newUserId =
        (true, setCurrentUserState (resetAllUserState store) newUserId)) ∧
    (∀ old, getCurrentUserState store = some old → ¬ old = newUserId →
      checkAndResetUserState store newUserId =
        (true, setCurrentUserState (resetAllUserState store) newUserId)) ∧
    (¬ getCurrentUserState store = some newUserId →
      ∀ k, isUserDataKey k = true →
        getItem (checkAndResetUserState store newUserId).2 k = none) ∧
    (¬ getCurrentUserState store = some newUserId →
      getCurrentUserState (checkAndResetUserState store newUserId).2 =
        some newUserId) ∧
    ((checkAndResetUserState store newUserId).1 = false ↔
      getCurrentUserState store = some newUserId) := by
  have hreset : ∀ k, isUserDataKey k = true →
      getItem (setCurrentUserState (resetAllUserState store) newUserId) k = none := by
    intro k hk
    have hkc : ¬ ("current_user_state" : String) = k := by
      intro hc
      rw [← hc] at hk
      rw [cus_not_user_data] at hk
      exact absurd hk (by simp)
    unfold setCurrentUserState setItem
    rw [getItem_append_last_ne _ _ _ _ hkc]
    rw [getItem_removeItem_ne _ _ _ (fun hc => hkc hc.symm)]
    exact getItem_resetAllUserState store k hk
  have hrec : getCurrentUserState
      (setCurrentUserState (resetAllUserState store) newUserId) = some newUserId := by
    unfold getCurrentUserState setCurrentUserState
    exact getItem_setItem_self _ _ _
  refine ⟨?_, ?_, ?_, ?_, ?_⟩
  · intro h
    unfold checkAndResetUserState
    rw [h]
  · intro old hold hne
    unfold checkAndResetUserState
    rw [hold]
    simp [hne]
  · intro hne k hk
    unfold checkAndResetUserState
    cases hs : getCurrentUserState store with
    | none => exact hreset k hk
    | some uid =>
        have hneq : ¬ uid = newUserId := by
          intro hc
          rw [hc] at hs
          exact hne hs
        simpa [hneq] using hreset k hk
  · intro hne
    unfold checkAndResetUserState
    cases hs : getCurrentUserState store with
    | none => exact hrec
    | some uid =>
        have hneq : ¬ uid = newUserId := by
          intro hc
          rw [hc] at hs
          exact hne hs
        simpa [hneq] using hrec
  · unfold checkAndResetUserState
    cases hs : getCurrentUserState store with
    | none => simp
    | some uid =>
        by_cases hneq : uid = newUserId
        · subst hneq
          simp
        · simp [hneq]

/-- Witness for C10: a first login on a device holding contest data. -/
theorem checkAndResetUserState_spec_witness :
    checkAndResetUserState [("contest_state", "x"), ("settings", "dark")] "u1" =
      (true, setCurrentUserState
        (resetAllUserState [("contest_state", "x"), ("settings", "dark")]) "u1") :=
  (checkAndResetUserState_spec [("contest_state", "x"), ("settings", "dark")] "u1").1 rfl

end DSAContest
